import Mathlib

/-!
Verification of the PDFTools bot against its specification.

The repository holds two revisions of the same Telegram bot:
`src/bot.py` (long-polling revision) and `src/main.py` (webhook revision).
Both keep a per-user in-memory session `{images, pdfs, collecting_images,
collecting_pdfs}` and route menu-text / photo / document events to handlers
that call external PDF, image and Word libraries.

This file shallowly embeds the session store, the text-extraction,
chunking, word-conversion and split helpers, and the relevant handler
branches of both revisions, and proves or refutes the frozen claims.

Modelling conventions:
- Python strings are `List Char` (so slicing `t[i:i+4000]` is `take`/`drop`
  and concatenation claims are literal list equality).
- Opaque Telegram file identifiers are `Nat`; a page of a PDF is an opaque
  `Nat`; a PDF document is its list of pages.
- `page.extract_text()` returns `Optional[str]`, embedded as
  `Option (List Char)` (`none` = no extractable text on that page).
- External effects (downloads, uploads, message sends) are modelled by
  oracle parameters; a collaborator failure is modelled by naming the step
  at which the exception is raised (`FailStep`), and each handler embedding
  records the session left behind, the replies sent, whether the scoped
  temp directory was removed, and whether an exception escaped the handler.
-/

namespace PDFTools

/-- A Python `str`, embedded as its character list. -/
abbrev Text := List Char

/-- A Telegram file id (opaque content reference). -/
abbrev FileId := Nat

/-- One page of a PDF document (opaque content). -/
abbrev Page := Nat

/-- Truthiness of `t.strip()` in Python: true iff `t` has a
non-whitespace character. Used by `if not text.strip():` guards. -/
def stripTruthy (t : Text) : Bool :=
  t.any (fun c => !c.isWhitespace)

/-! ## Text extraction (`extract_text_from_pdf`) -/

/-- One iteration of the loop in `src/bot.py` lines 83-88:
`text += page.extract_text() + "\n"`.  When `page.extract_text()` is
`None`, Python raises `TypeError` (`None + "\n"`); the raised state is
`none` and it absorbs the rest of the loop. -/
def bot_extract_step (acc : Option Text) (p : Option Text) : Option Text :=
  match acc, p with
  | some t, some pt => some (t ++ pt ++ ['\n'])
  | _, _ => none

/-- Embeds `extract_text_from_pdf` of `src/bot.py` lines 83-88. The
input is the per-page `page.extract_text()` results; the output is
`some text` on normal return and `none` when the loop raised. -/
def bot_extract_text_from_pdf (pages : List (Option Text)) : Option Text :=
  pages.foldl bot_extract_step (some [])

/-- One iteration of the loop in `src/main.py` lines 87-94:
`ptext = page.extract_text(); if ptext: text += ptext + "\n"`.
`if ptext:` skips both `None` and the empty string. -/
def main_extract_step (acc : Text) (p : Option Text) : Text :=
  match p with
  | some pt => if pt.isEmpty then acc else acc ++ pt ++ ['\n']
  | none => acc

/-- Embeds `extract_text_from_pdf` of `src/main.py` lines 87-94; total. -/
def main_extract_text_from_pdf (pages : List (Option Text)) : Text :=
  pages.foldl main_extract_step []

/-! ## Extract-Text delivery -/

/-- Embeds the chunked delivery loop of `src/main.py` lines 244-245:
`for i in range(0, len(t), 4000): reply(t[i:i+4000])`. -/
def main_chunks (t : Text) : List Text :=
  if h : t = [] then []
  else t.take 4000 :: main_chunks (t.drop 4000)
termination_by t.length
decreasing_by
  simp only [List.length_drop]
  have hlen : t.length ≠ 0 := fun hl => h (List.length_eq_zero.mp hl)
  omega

/-- The header `"📄 Extracted text:\n"` prefixed by `src/bot.py` line 254. -/
def extractHeader : Text := "📄 Extracted text:\n".data

/-- The substitute text of `src/bot.py` line 253. -/
def noTextFoundMsg : Text := "No text found in PDF.".data

/-- Embeds the delivery of `src/bot.py` lines 252-254: if the extracted
text is whitespace-only it is replaced by a placeholder, then a single
message `f"📄 Extracted text:\n{text_content[:4000]}"` is sent. -/
def bot_extract_delivered (t : Text) : List Text :=
  let t2 := if stripTruthy t then t else noTextFoundMsg
  [extractHeader ++ t2.take 4000]

/-- Embeds the delivery of `src/main.py` lines 241-245: a whitespace-only
text yields a warning (no text segments); otherwise the chunk loop runs. -/
def main_extract_delivered (t : Text) : List Text :=
  if stripTruthy t then main_chunks t else []

/-! ## PDF → Word (`pdf_to_word`) -/

/-- Embeds `pdf_to_word` of `src/bot.py` lines 90-94: a single
`doc.add_paragraph(text)` call, so the document holds one paragraph
containing the whole extracted text. -/
def bot_pdf_to_word_paragraphs (t : Text) : List Text := [t]

/-- One iteration of the loop in `src/main.py` lines 99-101:
`if line.strip(): doc.add_paragraph(line)`. -/
def main_word_step (doc : List Text) (line : Text) : List Text :=
  if stripTruthy line then doc ++ [line] else doc

/-- Embeds `pdf_to_word` of `src/main.py` lines 96-102: the paragraphs
added to the document, in order, when converting extracted text `t`. -/
def main_pdf_to_word_paragraphs (t : Text) : List Text :=
  (t.splitOn '\n').foldl main_word_step []

/-! ## Split PDF -/

/-- Embeds `split_pdf` of `src/bot.py` lines 70-81: for each page index
`i` (0-based) with `i+1 ∈ pages`, emit a one-page PDF holding that page,
in page order. -/
def split_pdf (pdf : List Page) (pages : List Nat) : List (List Page) :=
  ((pdf.enum).filter (fun ip => pages.contains (ip.1 + 1))).map (fun ip => [ip.2])

/-- Embeds `split_pdf` of `src/main.py` lines 74-85: one output PDF per
requested range `(s, e)`, holding pages `s..min(e, len)` (1-based,
inclusive), i.e. 0-based indices `range(s-1, min(e, len))`.  Modelled
for `1 ≤ s` (the handler parses positive range bounds). -/
def split_pdf_ranges (pdf : List Page) (ranges : List (Nat × Nat)) : List (List Page) :=
  ranges.map (fun se => (pdf.take (min se.2 pdf.length)).drop (se.1 - 1))

/-! ## Sessions and the session store -/

/-- A fully-initialised per-user session record (after
`ensure_user_session` has filled every field). -/
structure Session where
  images : List FileId
  pdfs : List FileId
  collecting_images : Bool
  collecting_pdfs : Bool
deriving DecidableEq, Repr

/-- A raw session dict as stored in `user_sessions`: each field may be
absent (`none`), since `session.clear()` in `src/bot.py` line 128 empties
the dict in place and `setdefault` fills fields lazily. -/
structure RawSession where
  images : Option (List FileId)
  pdfs : Option (List FileId)
  collecting_images : Option Bool
  collecting_pdfs : Option Bool
deriving DecidableEq, Repr

/-- The empty dict `{}` installed by `user_sessions.setdefault(uid, {})`. -/
def emptyRaw : RawSession := ⟨none, none, none, none⟩

/-- The default record after all four `setdefault` calls. -/
def defaultRaw : RawSession := ⟨some [], some [], some false, some false⟩

/-- The in-memory `user_sessions` mapping. -/
abbrev Store := Nat → Option RawSession

/-- The four `s.setdefault(...)` calls of `ensure_user_session`
(`src/bot.py` lines 41-44, `src/main.py` lines 44-47): fill each absent
field with its default, keep present fields unchanged. -/
def setdefaults (s : RawSession) : RawSession :=
  ⟨some (s.images.getD []), some (s.pdfs.getD []),
   some (s.collecting_images.getD false), some (s.collecting_pdfs.getD false)⟩

/-- Embeds `ensure_user_session` (`src/bot.py` lines 39-45, `src/main.py`
lines 42-48): `setdefault` the dict for `uid`, fill its fields, and --
since the Python dict is mutated in place -- the store afterwards holds
the filled record.  Returns the new store and the returned record. -/
def ensure_user_session (st : Store) (uid : Nat) : Store × RawSession :=
  let s0 := (st uid).getD emptyRaw
  let s1 := setdefaults s0
  (fun u => if u = uid then some s1 else st u, s1)

/-- Embeds Cancel in `src/bot.py` lines 127-130: `session.clear()`
empties the stored dict in place (the key remains, mapped to `{}`). -/
def bot_cancel (st : Store) (uid : Nat) : Store :=
  fun u => if u = uid then some emptyRaw else st u

/-- Embeds Cancel in `src/main.py` lines 127-129:
`user_sessions.pop(user_id, None)` removes the key from the store. -/
def main_cancel (st : Store) (uid : Nat) : Store :=
  fun u => if u = uid then none else st u

/-! ## Handler embeddings -/

/-- Replies sent by the embedded handler branches, by source line. -/
inductive Msg where
  | warnNoImages
  | creating
  | created
  | warnNoPdfs
  | guidance
  | imageSaved
  | imageSaveFailed
  | splitDone
deriving DecidableEq, Repr

/-- The step of a handler at which the external collaborator raises. -/
inductive FailStep where
  | download
  | transform
  | sendChannel
  | sendUser
deriving DecidableEq, Repr

/-- Observable outcome of one handler invocation: the session left
behind, the replies sent, whether the scoped temp directory was removed,
and whether an exception escaped the handler into the dispatch loop. -/
structure HandlerResult where
  session : Session
  replies : List Msg
  tmpReleased : Bool
  exnPropagated : Bool
deriving DecidableEq, Repr

/-- Embeds the Create PDF branch of `src/bot.py` lines 139-170.
Precondition check (139-142) happens before `mkdtemp`; inside
`try/finally`, steps are: download images (148-152), compose (155),
upload to channel (157-159), session update `pdfs := [new]`,
`images := []`, `collecting_images := False` (161-163), send to the
requesting user (165), success reply (166); `finally` removes the temp
dir (168).  There is no `except` clause: a failing step lets the
exception escape after the `finally` runs. -/
def bot_create_pdf (s : Session) (newFid : FileId) (fail : Option FailStep) :
    HandlerResult :=
  if s.images.isEmpty then
    ⟨s, [Msg.warnNoImages], true, false⟩
  else
    match fail with
    | some FailStep.download => ⟨s, [Msg.creating], true, true⟩
    | some FailStep.transform => ⟨s, [Msg.creating], true, true⟩
    | some FailStep.sendChannel => ⟨s, [Msg.creating], true, true⟩
    | some FailStep.sendUser =>
        ⟨{ s with pdfs := [newFid], images := [], collecting_images := false },
         [Msg.creating], true, true⟩
    | none =>
        ⟨{ s with pdfs := [newFid], images := [], collecting_images := false },
         [Msg.creating, Msg.created], true, false⟩

/-- Embeds the Create PDF branch of `src/main.py` lines 137-162.
Steps inside `try/finally`: download (145-148), compose (150), send to
user (152-153), upload to channel (155-156), then session update
`pdfs.append(new)`, `images := []`, `collecting_images := False`
(157-159); `finally` removes the temp dir (161).  Every collaborator
step precedes the session update, and there is no `except` clause. -/
def main_create_pdf (s : Session) (newFid : FileId) (fail : Option FailStep) :
    HandlerResult :=
  if s.images.isEmpty then
    ⟨s, [Msg.warnNoImages], true, false⟩
  else
    match fail with
    | some FailStep.download => ⟨s, [Msg.creating], true, true⟩
    | some FailStep.transform => ⟨s, [Msg.creating], true, true⟩
    | some FailStep.sendUser => ⟨s, [Msg.creating], true, true⟩
    | some FailStep.sendChannel => ⟨s, [Msg.creating], true, true⟩
    | none =>
        ⟨{ s with pdfs := s.pdfs ++ [newFid], images := [], collecting_images := false },
         [Msg.creating], true, false⟩

/-- Embeds `photo_handler` of `src/main.py` lines 271-280: when
`collecting_images` is false the photo is dropped with a guidance reply;
otherwise the re-uploaded file id is appended to `images`. -/
def main_photo_handler (s : Session) (fid : FileId) : Session × List Msg :=
  if !s.collecting_images then (s, [Msg.guidance])
  else ({ s with images := s.images ++ [fid] }, [Msg.imageSaved])

/-- Embeds `photo_handler` of `src/bot.py` lines 308-324: when
`collecting_images` is false the handler sets it to true (lines 311-312)
and proceeds; the photo is re-uploaded (`sendOk` = the upload succeeded)
and on success its file id is appended to `images`; on failure the
`except` branch replies with an error. -/
def bot_photo_handler (s : Session) (fid : FileId) (sendOk : Bool) :
    Session × List Msg :=
  let s1 := if !s.collecting_images then { s with collecting_images := true } else s
  if sendOk then ({ s1 with images := s1.images ++ [fid] }, [Msg.imageSaved])
  else (s1, [Msg.imageSaveFailed])

/-- Embeds the Split PDF branch of `src/bot.py` lines 209-238: with a
non-empty `pdfs` list, download the last PDF (`content` resolves a file
id to its pages), split every page (`pages_to_split = [1..K]`, line 220),
upload each one-page artifact (`upload`), and replace `session["pdfs"]`
with the uploaded ids in page order (line 233). -/
def bot_split_handler (s : Session) (content : FileId → List Page)
    (upload : List Page → FileId) : Session × List Msg :=
  if s.pdfs.isEmpty then (s, [Msg.warnNoPdfs])
  else
    let pdf := content (s.pdfs.getLastD 0)
    let pagesToSplit := (List.range pdf.length).map (fun i => i + 1)
    let outs := split_pdf pdf pagesToSplit
    ({ s with pdfs := outs.map upload }, [Msg.splitDone])

/-! ## Helper lemmas -/

theorem main_chunks_flatten (t : Text) : (main_chunks t).flatten = t := by
  generalize hn : t.length = n
  induction n using Nat.strong_induction_on generalizing t with
  | _ n ih =>
    by_cases h : t = []
    · subst h; rw [main_chunks]; simp
    · rw [main_chunks]
      simp only [h, dite_false]
      rw [List.flatten_cons]
      have hlt : (t.drop 4000).length < n := by
        have : t.length ≠ 0 := fun hl => h (List.length_eq_zero.mp hl)
        simp only [List.length_drop]
        omega
      rw [ih (t.drop 4000).length hlt (t.drop 4000) rfl]
      exact List.take_append_drop 4000 t

theorem main_chunks_le (t : Text) : ∀ c ∈ main_chunks t, c.length ≤ 4000 := by
  generalize hn : t.length = n
  induction n using Nat.strong_induction_on generalizing t with
  | _ n ih =>
    by_cases h : t = []
    · subst h; rw [main_chunks]; simp
    · rw [main_chunks]
      simp only [h, dite_false]
      intro c hc
      rcases List.mem_cons.mp hc with hc | hc
      · subst hc
        simp [List.length_take]
      · have hlt : (t.drop 4000).length < n := by
          have : t.length ≠ 0 := fun hl => h (List.length_eq_zero.mp hl)
          simp only [List.length_drop]
          omega
        exact ih (t.drop 4000).length hlt (t.drop 4000) rfl c hc

theorem bot_extract_step_isSome (acc : Option Text) (p : Option Text) :
    (bot_extract_step acc p).isSome = (acc.isSome && p.isSome) := by
  cases acc <;> cases p <;> simp [bot_extract_step]

theorem bot_extract_foldl_isSome (pages : List (Option Text)) (acc : Option Text) :
    (pages.foldl bot_extract_step acc).isSome ↔
      acc.isSome ∧ ∀ p ∈ pages, p.isSome := by
  induction pages generalizing acc with
  | nil => simp
  | cons a l ih =>
    rw [List.foldl_cons, ih, bot_extract_step_isSome]
    simp only [Bool.and_eq_true, List.mem_cons]
    constructor
    · rintro ⟨⟨h1, h2⟩, h3⟩
      refine ⟨h1, fun p hp => ?_⟩
      rcases hp with hp | hp
      · subst hp; exact h2
      · exact h3 p hp
    · rintro ⟨h1, h2⟩
      exact ⟨⟨h1, h2 a (Or.inl rfl)⟩, fun p hp => h2 p (Or.inr hp)⟩

theorem main_extract_skips_none (xs ys : List (Option Text)) :
    main_extract_text_from_pdf (xs ++ none :: ys) =
      main_extract_text_from_pdf (xs ++ ys) := by
  simp [main_extract_text_from_pdf, List.foldl_append, List.foldl_cons, main_extract_step]

theorem main_word_foldl (ls : List Text) (acc : List Text) :
    ls.foldl main_word_step acc = acc ++ ls.filter stripTruthy := by
  induction ls generalizing acc with
  | nil => simp
  | cons a l ih =>
    rw [List.foldl_cons, ih, List.filter_cons]
    by_cases h : stripTruthy a
    · simp [main_word_step, h, List.append_assoc]
    · simp [main_word_step, h]

theorem split_enumFrom (l : List Page) (k : Nat) (pages : List Nat)
    (h : ∀ i, k + 1 ≤ i → i ≤ k + l.length → pages.contains i = true) :
    ((l.enumFrom k).filter (fun ip => pages.contains (ip.1 + 1))).map (fun ip => [ip.2]) =
      l.map (fun p => [p]) := by
  induction l generalizing k with
  | nil => simp
  | cons a l ih =>
    rw [List.enumFrom_cons, List.filter_cons]
    have hk : pages.contains (k + 1) = true :=
      h (k + 1) le_rfl (by simp only [List.length_cons]; omega)
    simp only [hk, if_true]
    rw [List.map_cons, List.map_cons]
    congr 1
    exact ih (k + 1) (fun i h1 h2 =>
      h i (by omega) (by simp only [List.length_cons]; omega))

theorem split_pdf_all_pages (pdf : List Page) :
    split_pdf pdf ((List.range pdf.length).map (fun i => i + 1)) =
      pdf.map (fun p => [p]) := by
  rw [split_pdf]
  have henum : pdf.enum = pdf.enumFrom 0 := rfl
  rw [henum]
  apply split_enumFrom
  intro i h1 h2
  have hi : i - 1 < pdf.length := by omega
  have hmem : i ∈ (List.range pdf.length).map (fun i => i + 1) := by
    simp only [List.mem_map, List.mem_range]
    exact ⟨i - 1, hi, by omega⟩
  exact List.elem_eq_true_of_mem hmem

theorem split_ranges_singletons (pdf : List Page) :
    split_pdf_ranges pdf ((List.range pdf.length).map (fun i => (i + 1, i + 1))) =
      pdf.map (fun p => [p]) := by
  rw [split_pdf_ranges, List.map_map]
  apply List.ext_get
  · simp
  · intro n h1 h2
    simp only [List.get_eq_getElem, List.getElem_map, List.getElem_range, Function.comp_apply]
    have hn : n < pdf.length := by simpa using h2
    have hmin : min (n + 1) pdf.length = n + 1 := by omega
    simp only [hmin, Nat.add_sub_cancel]
    rw [List.take_succ]
    have hlt : (pdf.take n).length = n := by
      simp only [List.length_take]
      omega
    rw [List.drop_left' hlt]
    simp [List.getElem?_eq_getElem hn]

theorem setdefaults_idem (s : RawSession) :
    setdefaults (setdefaults s) = setdefaults s := rfl

theorem isEmpty_false_of_ne_nil {l : List FileId} (h : l ≠ []) :
    l.isEmpty = false := by
  cases l with
  | nil => exact absurd rfl h
  | cons a t => rfl

/-! ## Claims -/

/-- C1 counterexample: in `src/bot.py` (lines 246-254) Extract Text
delivers a single message holding a header plus only the first 4000
characters of the extracted text, so for a 4001-character text the
concatenation of the delivered segments is not byte-identical to the
text extracted in one pass. -/
theorem bot_extract_truncates :
    (bot_extract_delivered (List.replicate 4001 'a')).flatten ≠
      List.replicate 4001 'a' := by
  decide

/-- C1 amended: in `src/main.py` Extract Text delivers the extracted
text in chunks of at most 4000 characters whose in-order concatenation
is byte-identical to the whole text (delivery is chunked whenever the
text has a non-whitespace character); in `src/bot.py` the delivery is a
single message bounded by the header length plus 4000 characters, so any
longer text is truncated. -/
theorem extract_text_chunk_delivery (t : Text) :
    ((main_chunks t).flatten = t ∧ ∀ c ∈ main_chunks t, c.length ≤ 4000) ∧
    (stripTruthy t = true → main_extract_delivered t = main_chunks t) ∧
    ((bot_extract_delivered t).length = 1 ∧
      ∀ c ∈ bot_extract_delivered t, c.length ≤ extractHeader.length + 4000) := by
  refine ⟨⟨main_chunks_flatten t, main_chunks_le t⟩, ?_, ?_, ?_⟩
  · intro h
    simp [main_extract_delivered, h]
  · rfl
  · intro c hc
    simp only [bot_extract_delivered, List.mem_singleton] at hc
    subst hc
    simp only [List.length_append, List.length_take]
    omega

/-- C1 witness: a concrete text with non-whitespace content is delivered
chunked in `src/main.py`. -/
theorem extract_text_chunk_delivery_witness :
    main_extract_delivered ['h', 'i'] = main_chunks ['h', 'i'] :=
  (extract_text_chunk_delivery ['h', 'i']).2.1 (by decide)

/-- C2 counterexample: in `src/bot.py` (lines 308-324) a photo arriving
while `collecting_images` is false is not dropped: the handler sets the
flag to true and appends the photo, so the session changes. -/
theorem bot_photo_not_gated :
    (bot_photo_handler ⟨[], [], false, false⟩ 7 true).1.images = [7] ∧
    (bot_photo_handler ⟨[], [], false, false⟩ 7 true).1 ≠ ⟨[], [], false, false⟩ := by
  decide

/-- C2 amended: in `src/main.py` a photo is dropped with a guidance reply
when `collectingImages` is false and appended to `images` only when it is
true; in `src/bot.py` the handler instead turns `collectingImages` on and
accepts the photo regardless of the prior flag (replying with an error
only when the channel upload fails, the flag staying on). -/
theorem photo_handler_gating (s : Session) (fid : FileId) :
    (s.collecting_images = false → main_photo_handler s fid = (s, [Msg.guidance])) ∧
    (s.collecting_images = true →
      main_photo_handler s fid =
        ({ s with images := s.images ++ [fid] }, [Msg.imageSaved])) ∧
    bot_photo_handler s fid true =
      ({ s with collecting_images := true, images := s.images ++ [fid] },
       [Msg.imageSaved]) ∧
    bot_photo_handler s fid false =
      ({ s with collecting_images := true }, [Msg.imageSaveFailed]) := by
  refine ⟨?_, ?_, ?_, ?_⟩
  · intro h
    simp [main_photo_handler, h]
  · intro h
    simp [main_photo_handler, h]
  · cases s with
    | mk im pd ci cp => cases ci <;> simp [bot_photo_handler]
  · cases s with
    | mk im pd ci cp => cases ci <;> simp [bot_photo_handler]

/-- C2 witness: a concrete non-collecting session drops the photo with a
guidance reply in `src/main.py`. -/
theorem photo_handler_gating_witness :
    main_photo_handler ⟨[1], [2], false, false⟩ 9 =
      (⟨[1], [2], false, false⟩, [Msg.guidance]) :=
  (photo_handler_gating ⟨[1], [2], false, false⟩ 9).1 rfl

/-- C3 counterexample: in `src/main.py` (line 157) Create PDF appends the
new artifact to `pdfs` instead of replacing the list, so a session that
already held a PDF ends with two entries, not the claimed singleton. -/
theorem main_create_pdf_appends :
    (main_create_pdf ⟨[1], [5], true, false⟩ 9 none).session.pdfs = [5, 9] ∧
    (main_create_pdf ⟨[1], [5], true, false⟩ 9 none).session.pdfs ≠ [9] := by
  decide

/-- C3 amended: a successful Create PDF always clears `images` and sets
`collectingImages` false; `src/bot.py` replaces `pdfs` with the singleton
new artifact, while `src/main.py` appends the new artifact to the
existing `pdfs` list. -/
theorem create_pdf_post_state (s : Session) (nf : FileId) (h : s.images ≠ []) :
    (bot_create_pdf s nf none).session =
      { s with pdfs := [nf], images := [], collecting_images := false } ∧
    (main_create_pdf s nf none).session =
      { s with pdfs := s.pdfs ++ [nf], images := [], collecting_images := false } := by
  have h2 := isEmpty_false_of_ne_nil h
  constructor <;> simp [bot_create_pdf, main_create_pdf, h2]

/-- C3 witness: the post-state at a concrete session with one image. -/
theorem create_pdf_post_state_witness :
    (bot_create_pdf ⟨[2], [5], true, false⟩ 9 none).session =
      ⟨[], [9], false, false⟩ :=
  (create_pdf_post_state ⟨[2], [5], true, false⟩ 9 (by decide)).1

/-- C4 counterexample: `split_pdf` of `src/main.py` (lines 74-85) splits
by caller-supplied ranges; on a 3-page PDF with the range `(1, 3)` it
produces one artifact holding all three pages, not three one-page
artifacts. -/
theorem split_ranges_not_single_pages :
    split_pdf_ranges [10, 20, 30] [(1, 3)] = [[10, 20, 30]] ∧
    (split_pdf_ranges [10, 20, 30] [(1, 3)]).length ≠ 3 := by
  decide

/-- C4 amended: in `src/bot.py` the Split PDF operation replaces the
session's `pdfs` with exactly one single-page artifact per page of the
last PDF, in page order; in `src/main.py` splitting takes user-supplied
ranges and emits one artifact per range, so one-page-per-page output
arises exactly from the singleton ranges `(1,1),...,(K,K)`. -/
theorem split_pdf_behavior (s : Session) (content : FileId → List Page)
    (upload : List Page → FileId) (h : s.pdfs ≠ []) :
    (bot_split_handler s content upload).1 =
      { s with pdfs := (content (s.pdfs.getLastD 0)).map (fun p => upload [p]) } ∧
    ∀ pdf : List Page,
      split_pdf_ranges pdf ((List.range pdf.length).map (fun i => (i + 1, i + 1))) =
        pdf.map (fun p => [p]) := by
  constructor
  · have h2 := isEmpty_false_of_ne_nil h
    simp only [bot_split_handler, h2, Bool.false_eq_true, if_false]
    rw [split_pdf_all_pages]
    simp [List.map_map, Function.comp]
  · exact split_ranges_singletons

/-- C4 witness: splitting a concrete two-page PDF in the `src/bot.py`
model yields one artifact per page. -/
theorem split_pdf_behavior_witness :
    (bot_split_handler ⟨[], [3], false, false⟩ (fun _ => [10, 20])
        (fun l => l.headD 0)).1.pdfs = [10, 20] := by
  have h := (split_pdf_behavior ⟨[], [3], false, false⟩ (fun _ => [10, 20])
    (fun l => l.headD 0) (by decide)).1
  rw [h]
  decide

/-- C5 counterexample: `pdf_to_word` of `src/bot.py` (lines 90-94) adds
the whole extracted text as one paragraph, so a text with two non-empty
lines yields one paragraph, not two. -/
theorem bot_word_single_paragraph :
    bot_pdf_to_word_paragraphs ('a' :: '\n' :: ['b']) = [['a', '\n', 'b']] ∧
    (bot_pdf_to_word_paragraphs ('a' :: '\n' :: ['b'])).length ≠ 2 := by
  decide

/-- C5 amended: in `src/main.py` Convert to Word emits exactly one
paragraph per line of the extracted text that has a non-whitespace
character, in original line order (whitespace-only lines contribute no
paragraph); in `src/bot.py` the whole extracted text becomes a single
paragraph. -/
theorem pdf_to_word_paragraphs_spec (t : Text) :
    main_pdf_to_word_paragraphs t = (t.splitOn '\n').filter stripTruthy ∧
    bot_pdf_to_word_paragraphs t = [t] ∧
    (bot_pdf_to_word_paragraphs t).length = 1 := by
  refine ⟨?_, rfl, rfl⟩
  rw [main_pdf_to_word_paragraphs, main_word_foldl]
  simp

/-- C6 counterexample: in `src/bot.py` the Create PDF handler body is a
`try/finally` with no `except`: when the image download raises, the
exception escapes the handler (`exnPropagated = true`) and the only reply
sent is the progress message, so the failure is neither caught at the
handler boundary nor reported to the user. -/
theorem create_pdf_failure_uncaught :
    bot_create_pdf ⟨[1], [], true, false⟩ 9 (some FailStep.download) =
      ⟨⟨[1], [], true, false⟩, [Msg.creating], true, true⟩ := by
  decide

/-- C6 amended: a collaborator failure during Create PDF is not caught
inside the handler and no failure reply is sent: the exception propagates
to the dispatch framework; the scoped temp directory is still released on
every failing step, and the session keeps its pre-operation state -- in
`src/main.py` for every failing step, in `src/bot.py` for every step
except the final send-to-user, which runs after the session update. -/
theorem create_pdf_failure_behavior (s : Session) (nf : FileId) (fs : FailStep)
    (h : s.images ≠ []) :
    ((bot_create_pdf s nf (some fs)).exnPropagated = true ∧
     (bot_create_pdf s nf (some fs)).tmpReleased = true ∧
     (bot_create_pdf s nf (some fs)).replies = [Msg.creating] ∧
     (fs ≠ FailStep.sendUser → (bot_create_pdf s nf (some fs)).session = s)) ∧
    ((main_create_pdf s nf (some fs)).exnPropagated = true ∧
     (main_create_pdf s nf (some fs)).tmpReleased = true ∧
     (main_create_pdf s nf (some fs)).replies = [Msg.creating] ∧
     (main_create_pdf s nf (some fs)).session = s) := by
  have h2 := isEmpty_false_of_ne_nil h
  cases fs <;> simp [bot_create_pdf, main_create_pdf, h2]

/-- C6 witness: a concrete download failure leaves a concrete session
unchanged in the `src/bot.py` model. -/
theorem create_pdf_failure_behavior_witness :
    (bot_create_pdf ⟨[4], [7], true, false⟩ 9 (some FailStep.download)).session =
      ⟨[4], [7], true, false⟩ :=
  ((create_pdf_failure_behavior ⟨[4], [7], true, false⟩ 9 FailStep.download
    (by decide)).1).2.2.2 (by decide)

/-- C7 confirmed: selecting Create PDF with an empty `images` list
produces only the precondition warning and leaves the session exactly as
it was, in both revisions; no temp workspace is leaked and no exception
escapes. -/
theorem create_pdf_no_images_warns (s : Session) (nf : FileId)
    (fail : Option FailStep) (h : s.images = []) :
    bot_create_pdf s nf fail = ⟨s, [Msg.warnNoImages], true, false⟩ ∧
    main_create_pdf s nf fail = ⟨s, [Msg.warnNoImages], true, false⟩ := by
  have h2 : s.images.isEmpty = true := by rw [h]; rfl
  constructor <;> simp [bot_create_pdf, main_create_pdf, h2]

/-- C7 witness: a concrete session with no images gets only the warning. -/
theorem create_pdf_no_images_warns_witness :
    bot_create_pdf ⟨[], [3], false, true⟩ 0 none =
      ⟨⟨[], [3], false, true⟩, [Msg.warnNoImages], true, false⟩ :=
  (create_pdf_no_images_warns ⟨[], [3], false, true⟩ 0 none rfl).1

/-- C8 confirmed: after Cancel -- whether `src/bot.py`'s in-place
`session.clear()` or `src/main.py`'s `user_sessions.pop` -- the next
`ensure_user_session` for that user returns the default record with
empty `images`, empty `pdfs`, and both collection flags false. -/
theorem cancel_resets_session (st : Store) (uid : Nat) :
    (ensure_user_session (bot_cancel st uid) uid).2 = defaultRaw ∧
    (ensure_user_session (main_cancel st uid) uid).2 = defaultRaw := by
  constructor
  · simp [ensure_user_session, bot_cancel, setdefaults, emptyRaw, defaultRaw]
  · simp [ensure_user_session, main_cancel, setdefaults, emptyRaw, defaultRaw]

/-- C9 confirmed: `ensure_user_session` is idempotent: the store
afterwards holds exactly the returned record, calling it twice equals
calling it once (same store and same record, no field reset), and a
first call on an absent key returns the default record. -/
theorem ensure_user_session_idempotent (st : Store) (uid : Nat) :
    (ensure_user_session st uid).1 uid = some (ensure_user_session st uid).2 ∧
    ensure_user_session ((ensure_user_session st uid).1) uid =
      ensure_user_session st uid ∧
    (st uid = none → (ensure_user_session st uid).2 = defaultRaw) := by
  refine ⟨by simp [ensure_user_session], ?_, ?_⟩
  · unfold ensure_user_session
    simp only [if_pos rfl, Option.getD_some]
    refine Prod.ext ?_ ?_
    · funext u
      by_cases hu : u = uid
      · simp [hu, setdefaults_idem]
      · simp [hu]
    · simp [setdefaults_idem]
  · intro h
    simp [ensure_user_session, h, setdefaults, emptyRaw, defaultRaw]

/-- C9 witness: the first call for a fresh user returns the defaults. -/
theorem ensure_user_session_idempotent_witness :
    (ensure_user_session (fun _ => none) 5).2 = defaultRaw :=
  (ensure_user_session_idempotent (fun _ => none) 5).2.2 rfl

/-- C10 confirmed: `extract_text_from_pdf` in `src/main.py` is total and
a page yielding no extractable text contributes nothing to the output,
while in `src/bot.py` the extraction returns a result exactly when every
page yields text (a textless page raises `TypeError` on
`None + "\n"`). -/
theorem extract_text_total_vs_error (pages xs ys : List (Option Text)) :
    main_extract_text_from_pdf (xs ++ none :: ys) =
      main_extract_text_from_pdf (xs ++ ys) ∧
    ((bot_extract_text_from_pdf pages).isSome ↔ ∀ p ∈ pages, p.isSome) := by
  constructor
  · exact main_extract_skips_none xs ys
  · rw [bot_extract_text_from_pdf, bot_extract_foldl_isSome]
    simp

/-- C10 witness: a concrete all-text PDF extracts successfully in the
`src/bot.py` model. -/
theorem extract_text_total_vs_error_witness :
    (bot_extract_text_from_pdf [some ['a']]).isSome :=
  (extract_text_total_vs_error [some ['a']] [] []).2.mpr (by decide)

end PDFTools
